import Mathlib

/-!
Shallow embedding of the Velodent dental-clinic chat backend
(`src/main.py`, `src/schemas.py`).

The embedded core is the `/api/chat` endpoint (`chat` in `main.py`):
normalisation of the incoming message, the ordered keyword-intent table,
first-match-wins classification, the per-intent canned reply with the
shared quick-reply list, and the analytics events emitted for the
`book`, `insurance` and `callback` intents.

Conventions of the embedding:
- Python strings are `List Char` at the character-processing level and
  Lean `String` for opaque field values.
- `str.strip()` / `str.lower()` are modelled for ASCII (the spec fixes
  ASCII case-folding as sufficient); `k in text` is `hasSubstr`.
- The wall-clock timestamp (`datetime.now(timezone.utc).isoformat()`) is
  an explicit parameter `now`.
- The persistence side effect (`create_document("event", ...)`) is
  effect-as-data: `chat` returns the list of Event records it writes,
  in call order.
-/

/-- Python `str.strip()` whitespace test, restricted to the ASCII
whitespace characters: space, tab, newline, carriage return, vertical
tab, form feed. -/
def isPySpace (c : Char) : Bool :=
  c == ' ' || c == '\t' || c == '\n' || c == '\r' || c == '\x0b' || c == '\x0c'

/-- Python `str.strip()`: remove leading and trailing whitespace. -/
def pyStrip (l : List Char) : List Char :=
  ((l.dropWhile isPySpace).reverse.dropWhile isPySpace).reverse

/-- Python `str.lower()` on one character, for ASCII (maps the 26
upper-case ASCII letters to their lower-case forms, every other
character to itself). -/
def pyLowerChar (c : Char) : Char :=
  if c = 'A' then 'a' else if c = 'B' then 'b' else if c = 'C' then 'c'
  else if c = 'D' then 'd' else if c = 'E' then 'e' else if c = 'F' then 'f'
  else if c = 'G' then 'g' else if c = 'H' then 'h' else if c = 'I' then 'i'
  else if c = 'J' then 'j' else if c = 'K' then 'k' else if c = 'L' then 'l'
  else if c = 'M' then 'm' else if c = 'N' then 'n' else if c = 'O' then 'o'
  else if c = 'P' then 'p' else if c = 'Q' then 'q' else if c = 'R' then 'r'
  else if c = 'S' then 's' else if c = 'T' then 't' else if c = 'U' then 'u'
  else if c = 'V' then 'v' else if c = 'W' then 'w' else if c = 'X' then 'x'
  else if c = 'Y' then 'y' else if c = 'Z' then 'z'
  else c

/-- `(req.message or "").strip().lower()` (main.py line 101): strip,
then lower-case. -/
def normChars (l : List Char) : List Char :=
  (pyStrip l).map pyLowerChar

/-- Python `needle in hay` substring test on strings. -/
def hasSubstr (needle : List Char) : List Char → Bool
  | [] => needle.isEmpty
  | c :: t => needle.isPrefixOf (c :: t) || hasSubstr needle t

/-- The keyword table of the chat endpoint (main.py lines 116-125), in
its declaration order (Python dicts iterate in insertion order). -/
def intents : List (String × List String) :=
  [("book", ["book", "appointment", "schedule", "demo"]),
   ("reschedule", ["reschedule", "missed", "change"]),
   ("cancel", ["cancel"]),
   ("braces", ["braces", "tightening", "adjustment"]),
   ("insurance", ["insurance", "covered", "verify"]),
   ("payment", ["pay", "payment", "billing"]),
   ("receptionist", ["receptionist", "ai", "assistant"]),
   ("callback", ["call", "phone", "contact"])]

/-- `any(k in text for k in kws)` (main.py line 129). -/
def ruleMatches (p : String × List String) (text : List Char) : Bool :=
  p.2.any (fun k => hasSubstr k.toList text)

/-- The classification loop (main.py lines 127-131): `intent_detected`
starts as "general", the first rule whose keyword list has a substring
match wins, and the loop breaks there. -/
def detect (text : List Char) : String :=
  ((intents.find? (fun p => ruleMatches p text)).map Prod.fst).getD "general"

/-- Normalised text of a request message: `(req.message or "")` then
`.strip().lower()`. A `none` message (absent/null) behaves as `""`. -/
def normText (m : Option String) : List Char :=
  normChars (m.getD "").toList

/-- Classification over a raw character list (normalise, then detect). -/
def classifyText (t : List Char) : String :=
  detect (normChars t)

/-- End-to-end classifier of the chat endpoint: message extraction,
normalisation and the first-match keyword scan. -/
def classify (m : Option String) : String :=
  detect (normText m)

/-- One quick-reply action (label, action id, optional URL), as in the
dicts built by `reply` (main.py lines 107-111). -/
structure QuickReply where
  label : String
  action : String
  url : Option String
deriving DecidableEq, Repr

/-- `Event` (schemas.py lines 28-34): payload is `Optional[Dict]` with
`default_factory=dict`, so an omitted payload is the empty dict
`some []`. Payload values are opaque here and modelled as strings. -/
structure EventRec where
  event_type : String
  source : String
  page : Option String
  session_id : Option String
  payload : Option (List (String × String))
deriving DecidableEq, Repr

/-- `ChatRequest` (main.py lines 88-93). `message: str` is required by
the Pydantic model but the handler guards with `req.message or ""`, so
it is embedded as `Option String`; `user` is an opaque dict. -/
structure ChatRequest where
  message : Option String
  session_id : Option String
  page : Option String
  consent : Bool
  user : Option (List (String × String))
deriving DecidableEq

/-- The dict returned by `reply` (main.py lines 103-113). -/
structure ChatReplyOut where
  reply : String
  intent : String
  quickReplies : List QuickReply
  timestamp : String
deriving DecidableEq, Repr

/-- The default quick-reply list (main.py lines 107-111). -/
def defaultQuickReplies : List QuickReply :=
  [⟨"Book Now", "book", some "https://cal.com/velodent-ogbkfv/20min"⟩,
   ⟨"Check Insurance", "insurance", none⟩,
   ⟨"Request Callback", "callback", none⟩]

/-- `reply(msg, intent, quick=None)`: every call site passes
`quick=None`, so the default quick-reply list is always used. -/
def mkReply (msg : String) (intent : String) (now : String) : ChatReplyOut :=
  ⟨msg, intent, defaultQuickReplies, now⟩

/-- The Event constructions in `chat` (main.py lines 135, 156, 172):
`Event(event_type=..., source="website", page=req.page,
session_id=req.session_id)` — no payload argument, so the schema
default (empty dict) applies. -/
def mkChatEvent (event_type : String) (page session_id : Option String) : EventRec :=
  ⟨event_type, "website", page, session_id, some []⟩

def bookText : String :=
  "I can help you book a visit. Use Book Now to choose a time, or share your name, email, phone, and preferred times and I’ll arrange it."

def reschedText : String :=
  "No problem. Please share your name and the original appointment date, plus new preferred times. I can also send a rescheduling link."

def cancelText : String :=
  "I can assist with cancellations. Please confirm your name and appointment date so I can notify the team."

def bracesText : String :=
  "For braces, we typically schedule tightening every 4–8 weeks depending on your plan. If you’re due, I can help you book a slot."

def insuranceText : String :=
  "We verify insurance by collecting your provider and member ID, then confirming coverage. I can start that if you consent to share details."

def paymentText : String :=
  "You can pay at the clinic via card or contactless. For invoices or estimates, our team can assist—would you like a callback?"

def receptionistText : String :=
  "Velodent’s AI receptionist answers FAQs, helps with bookings, and can log your details privately. You control what you share."

def callbackText : String :=
  "Sure—share your phone number and a good time to reach you, and we’ll arrange a call."

def generalText : String :=
  "How can I help today? I can assist with bookings, insurance, braces schedules, or payments."

/-- The chat endpoint (main.py lines 96-178): classify, emit the
per-intent analytics event for book/insurance/callback, and return the
canned reply. The returned pair is (HTTP response body, list of Event
records passed to `create_document`, in call order). -/
def chat (req : ChatRequest) (now : String) : ChatReplyOut × List EventRec :=
  let d := classify req.message
  if d = "book" then
    (mkReply bookText "booking" now,
     [mkChatEvent "booking_requested" req.page req.session_id])
  else if d = "reschedule" then
    (mkReply reschedText "reschedule" now, [])
  else if d = "cancel" then
    (mkReply cancelText "cancel" now, [])
  else if d = "braces" then
    (mkReply bracesText "braces_guidance" now, [])
  else if d = "insurance" then
    (mkReply insuranceText "insurance_info" now,
     [mkChatEvent "insurance_check_requested" req.page req.session_id])
  else if d = "payment" then
    (mkReply paymentText "payment_info" now, [])
  else if d = "receptionist" then
    (mkReply receptionistText "about_bot" now, [])
  else if d = "callback" then
    (mkReply callbackText "callback" now,
     [mkChatEvent "handoff_requested" req.page req.session_id])
  else
    (mkReply generalText "general" now, [])

/-- Outcome of one persistence write by the collaborator. -/
inductive WriteResult
  | ok (id : String)
  | failed (err : String)
deriving DecidableEq

/-- Modelled from the spec: `create_document` lives in `database.py`,
which is not part of the specified core; per spec §6 its failure
behaviour belongs to the collaborator and per §7 persistence failures
must never prevent a reply, so the write is modelled as a total
function `persist` returning a success-or-failure value, never an
exception. `chatP` is `chat` with the writes performed through
`persist`; it returns the reply together with the write outcomes. -/
def chatP (persist : EventRec → WriteResult) (req : ChatRequest) (now : String) :
    ChatReplyOut × List WriteResult :=
  let d := classify req.message
  if d = "book" then
    (mkReply bookText "booking" now,
     [persist (mkChatEvent "booking_requested" req.page req.session_id)])
  else if d = "reschedule" then
    (mkReply reschedText "reschedule" now, [])
  else if d = "cancel" then
    (mkReply cancelText "cancel" now, [])
  else if d = "braces" then
    (mkReply bracesText "braces_guidance" now, [])
  else if d = "insurance" then
    (mkReply insuranceText "insurance_info" now,
     [persist (mkChatEvent "insurance_check_requested" req.page req.session_id)])
  else if d = "payment" then
    (mkReply paymentText "payment_info" now, [])
  else if d = "receptionist" then
    (mkReply receptionistText "about_bot" now, [])
  else if d = "callback" then
    (mkReply callbackText "callback" now,
     [persist (mkChatEvent "handoff_requested" req.page req.session_id)])
  else
    (mkReply generalText "general" now, [])

/-- A sequence of independent classifier calls (for the statelessness
property: the source classifier reads only its input and local
variables, so a run of calls is just a map). -/
def classifyTrace (calls : List (Option String)) : List String :=
  calls.map classify

/-- The per-intent label that `chat` puts into the `intent` field of
the response (the `intent=` arguments of the `reply(...)` calls in
main.py lines 134-178); it differs from the detected intent for five
of the nine cases. -/
def intentLabel (d : String) : String :=
  if d = "book" then "booking"
  else if d = "reschedule" then "reschedule"
  else if d = "cancel" then "cancel"
  else if d = "braces" then "braces_guidance"
  else if d = "insurance" then "insurance_info"
  else if d = "payment" then "payment_info"
  else if d = "receptionist" then "about_bot"
  else if d = "callback" then "callback"
  else "general"

/-! ### Helper lemmas -/

/-- `List.find?` returns the element at the first index whose predicate
holds (first-match-wins characterisation). -/
theorem find?_first {α : Type} (p : α → Bool) :
    ∀ (l : List α) (i : Nat) (hi : i < l.length),
      p (l.get ⟨i, hi⟩) = true →
      (∀ j (hj : j < i), p (l.get ⟨j, Nat.lt_trans hj hi⟩) = false) →
      l.find? p = some (l.get ⟨i, hi⟩)
  | a :: l, 0, hi, hp, _ => by
    have hp' : p a = true := hp
    exact (List.find?_cons_of_pos l hp').trans rfl
  | a :: l, i + 1, hi, hp, hprev => by
    have ha : p a = false := hprev 0 (Nat.succ_pos i)
    have ha' : ¬(p a = true) := by simp [ha]
    rw [List.find?_cons_of_neg l ha']
    exact find?_first p l i (Nat.lt_of_succ_lt_succ hi) hp
      (fun j hj => hprev (j + 1) (Nat.succ_lt_succ hj))

/-- `hasSubstr` decides the infix (substring) relation. -/
theorem hasSubstr_iff (n : List Char) : ∀ (h : List Char), hasSubstr n h = true ↔ n <:+: h
  | [] => by
    simp [hasSubstr, List.isEmpty_iff]
  | c :: t => by
    rw [hasSubstr, List.infix_cons_iff]
    simp [hasSubstr_iff n t]

theorem dropWhile_append_all {α : Type} (p : α → Bool) (w l : List α)
    (hw : w.all p = true) : (w ++ l).dropWhile p = l.dropWhile p := by
  induction w with
  | nil => rfl
  | cons a t ih =>
    simp only [List.all_cons, Bool.and_eq_true] at hw
    simp [List.dropWhile_cons, hw.1, ih hw.2]

theorem dropWhile_append_ne_nil {α : Type} (p : α → Bool) :
    ∀ (m w : List α), m.dropWhile p ≠ [] → (m ++ w).dropWhile p = m.dropWhile p ++ w
  | [], _, h => absurd rfl h
  | b :: t, w, h => by
    by_cases hb : p b = true
    · rw [List.cons_append, List.dropWhile_cons_of_pos hb, List.dropWhile_cons_of_pos hb]
      exact dropWhile_append_ne_nil p t w
        (by rwa [List.dropWhile_cons_of_pos hb] at h)
    · rw [List.cons_append, List.dropWhile_cons_of_neg (by simpa using hb),
        List.dropWhile_cons_of_neg (by simpa using hb), List.cons_append]

theorem pyStrip_space_append (w m : List Char) (hw : w.all isPySpace = true) :
    pyStrip (w ++ m) = pyStrip m := by
  rw [pyStrip, pyStrip, dropWhile_append_all _ _ _ hw]

theorem pyStrip_append_space (m w : List Char) (hw : w.all isPySpace = true) :
    pyStrip (m ++ w) = pyStrip m := by
  by_cases h : m.dropWhile isPySpace = []
  · have hm : m.all isPySpace = true := List.all_eq_true.mpr (List.dropWhile_eq_nil_iff.mp h)
    rw [pyStrip, pyStrip, dropWhile_append_all _ _ _ hm, h,
      List.dropWhile_eq_nil_iff.mpr (List.all_eq_true.mp hw)]
  · rw [pyStrip, pyStrip, dropWhile_append_ne_nil _ _ _ h, List.reverse_append,
      dropWhile_append_all _ _ _ (by rwa [List.all_reverse])]

theorem dropWhile_map_comm {α β : Type} (f : α → β) (p : β → Bool) :
    ∀ (l : List α), (l.map f).dropWhile p = (l.dropWhile (fun a => p (f a))).map f
  | [] => rfl
  | a :: t => by
    simp only [List.map_cons, List.dropWhile_cons]
    by_cases h : p (f a) = true
    · simp [h, dropWhile_map_comm f p t]
    · simp [h]

/-- ASCII lower-casing never turns a character into or out of
whitespace. -/
theorem isPySpace_pyLowerChar (c : Char) : isPySpace (pyLowerChar c) = isPySpace c := by
  rw [pyLowerChar]
  by_cases hA : c = 'A'
  · subst hA; rfl
  rw [if_neg hA]
  by_cases hB : c = 'B'
  · subst hB; rfl
  rw [if_neg hB]
  by_cases hC : c = 'C'
  · subst hC; rfl
  rw [if_neg hC]
  by_cases hD : c = 'D'
  · subst hD; rfl
  rw [if_neg hD]
  by_cases hE : c = 'E'
  · subst hE; rfl
  rw [if_neg hE]
  by_cases hF : c = 'F'
  · subst hF; rfl
  rw [if_neg hF]
  by_cases hG : c = 'G'
  · subst hG; rfl
  rw [if_neg hG]
  by_cases hH : c = 'H'
  · subst hH; rfl
  rw [if_neg hH]
  by_cases hI : c = 'I'
  · subst hI; rfl
  rw [if_neg hI]
  by_cases hJ : c = 'J'
  · subst hJ; rfl
  rw [if_neg hJ]
  by_cases hK : c = 'K'
  · subst hK; rfl
  rw [if_neg hK]
  by_cases hL : c = 'L'
  · subst hL; rfl
  rw [if_neg hL]
  by_cases hM : c = 'M'
  · subst hM; rfl
  rw [if_neg hM]
  by_cases hN : c = 'N'
  · subst hN; rfl
  rw [if_neg hN]
  by_cases hO : c = 'O'
  · subst hO; rfl
  rw [if_neg hO]
  by_cases hP : c = 'P'
  · subst hP; rfl
  rw [if_neg hP]
  by_cases hQ : c = 'Q'
  · subst hQ; rfl
  rw [if_neg hQ]
  by_cases hR : c = 'R'
  · subst hR; rfl
  rw [if_neg hR]
  by_cases hS : c = 'S'
  · subst hS; rfl
  rw [if_neg hS]
  by_cases hT : c = 'T'
  · subst hT; rfl
  rw [if_neg hT]
  by_cases hU : c = 'U'
  · subst hU; rfl
  rw [if_neg hU]
  by_cases hV : c = 'V'
  · subst hV; rfl
  rw [if_neg hV]
  by_cases hW : c = 'W'
  · subst hW; rfl
  rw [if_neg hW]
  by_cases hX : c = 'X'
  · subst hX; rfl
  rw [if_neg hX]
  by_cases hY : c = 'Y'
  · subst hY; rfl
  rw [if_neg hY]
  by_cases hZ : c = 'Z'
  · subst hZ; rfl
  rw [if_neg hZ]

theorem pyStrip_map_lower (l : List Char) :
    pyStrip (l.map pyLowerChar) = (pyStrip l).map pyLowerChar := by
  have hfun : (fun a => isPySpace (pyLowerChar a)) = isPySpace := funext isPySpace_pyLowerChar
  have hd : ∀ (x : List Char),
      (x.map pyLowerChar).dropWhile isPySpace = (x.dropWhile isPySpace).map pyLowerChar := by
    intro x
    rw [dropWhile_map_comm pyLowerChar isPySpace x, hfun]
  rw [pyStrip, pyStrip, hd, ← List.map_reverse, hd, ← List.map_reverse]

/-- Normalisation is invariant under ASCII case changes of the input. -/
theorem normChars_map_lower_eq (m₁ m₂ : List Char)
    (h : m₁.map pyLowerChar = m₂.map pyLowerChar) : normChars m₁ = normChars m₂ := by
  rw [normChars, normChars, ← pyStrip_map_lower, h, pyStrip_map_lower]

/-- Normalisation is invariant under surrounding whitespace. -/
theorem normChars_pad (m w₁ w₂ : List Char) (h1 : w₁.all isPySpace = true)
    (h2 : w₂.all isPySpace = true) : normChars (w₁ ++ m ++ w₂) = normChars m := by
  rw [normChars, normChars, List.append_assoc, pyStrip_space_append _ _ h1,
    pyStrip_append_space _ _ h2]

/-! ### Claim theorems -/

/-- C1: for every message, the classifier returns the intent of the
first rule — in the fixed declared order book, reschedule, cancel,
braces, insurance, payment, receptionist, callback — whose keyword list
contains a keyword occurring as a substring of the normalized (trimmed,
lower-cased) message, and returns "general" when no rule matches; in
particular a message containing none of the listed keywords classifies
as "general", and "I want to reschedule my appointment booking" (which
matches both book and reschedule keywords) classifies as "book". -/
theorem claim_C1_first_match_classifier :
    intents.map Prod.fst =
      ["book", "reschedule", "cancel", "braces", "insurance", "payment",
       "receptionist", "callback"]
    ∧ (∀ (m : Option String) (i : Nat) (hi : i < intents.length),
        ruleMatches (intents.get ⟨i, hi⟩) (normText m) = true →
        (∀ j (hj : j < i), ruleMatches (intents.get ⟨j, Nat.lt_trans hj hi⟩) (normText m) = false) →
        classify m = (intents.get ⟨i, hi⟩).1)
    ∧ (∀ (m : Option String),
        intents.all (fun p => p.2.all (fun k => ! hasSubstr k.toList (normText m))) = true →
        classify m = "general")
    ∧ classify (some "I want to reschedule my appointment booking") = "book" := by
  refine ⟨rfl, ?_, ?_, by decide⟩
  · intro m i hi hmatch hprev
    rw [classify, detect,
      find?_first (fun p => ruleMatches p (normText m)) intents i hi hmatch hprev]
    rfl
  · intro m hnone
    rw [classify, detect]
    have hfind : intents.find? (fun p => ruleMatches p (normText m)) = none := by
      rw [List.find?_eq_none]
      intro x hx
      have hx2 := (List.all_eq_true.mp hnone) x hx
      rw [ruleMatches]
      intro hany
      rw [List.any_eq_true] at hany
      obtain ⟨k, hk, hsub⟩ := hany
      have hneg := (List.all_eq_true.mp hx2) k hk
      rw [hsub] at hneg
      simp at hneg
    rw [hfind]
    rfl

/-- C1 witness: the theorem applied at concrete inputs ("hello" has no
keyword; "cancel please" matches the cancel rule, index 2, and no
earlier rule). -/
theorem claim_C1_witness :
    classify (some "hello") = "general" ∧ classify (some "cancel please") = "cancel" :=
  ⟨claim_C1_first_match_classifier.2.2.1 (some "hello") (by decide),
   by
    have h := claim_C1_first_match_classifier.2.1 (some "cancel please") 2
      (by decide) (by decide) (by decide)
    exact h⟩

/-- C2: an Event is written if and only if the classified intent is
book, insurance or callback — exactly one event, with event_type
booking_requested / insurance_check_requested / handoff_requested
respectively, source "website", and the request's page and session_id
passed through unchanged; every other intent writes nothing. -/
theorem claim_C2_event_dispatch (req : ChatRequest) (now : String) :
    (classify req.message = "book" →
      (chat req now).2 = [⟨"booking_requested", "website", req.page, req.session_id, some []⟩])
    ∧ (classify req.message = "insurance" →
      (chat req now).2 =
        [⟨"insurance_check_requested", "website", req.page, req.session_id, some []⟩])
    ∧ (classify req.message = "callback" →
      (chat req now).2 = [⟨"handoff_requested", "website", req.page, req.session_id, some []⟩])
    ∧ (classify req.message ≠ "book" → classify req.message ≠ "insurance" →
        classify req.message ≠ "callback" → (chat req now).2 = []) := by
  refine ⟨?_, ?_, ?_, ?_⟩
  · intro h
    simp [chat, h, mkChatEvent]
  · intro h
    simp [chat, h, mkChatEvent]
  · intro h
    simp [chat, h, mkChatEvent]
  · intro h1 h2 h3
    simp only [chat]
    split_ifs <;> first
      | rfl
      | exact absurd (by assumption) h1
      | exact absurd (by assumption) h2
      | exact absurd (by assumption) h3

/-- C2 witness: the theorem applied to a concrete booking request. -/
theorem claim_C2_witness :
    (chat ⟨some "book me", some "s1", some "p1", false, none⟩ "t").2 =
      [⟨"booking_requested", "website", some "p1", some "s1", some []⟩] :=
  (claim_C2_event_dispatch ⟨some "book me", some "s1", some "p1", false, none⟩ "t").1 (by decide)

/-- C3 counterexample: for the message "book" the detected intent is
"book", but the reply's intent field is "booking", which is not the
matched intent and lies outside the claimed closed set {book,
reschedule, cancel, braces, insurance, payment, receptionist, callback,
general}. -/
theorem claim_C3_counterexample :
    classify (some "book") = "book"
    ∧ ((chat ⟨some "book", none, none, false, none⟩ "t").1).intent = "booking"
    ∧ "booking" ∉
        (["book", "reschedule", "cancel", "braces", "insurance", "payment",
          "receptionist", "callback", "general"] : List String) :=
  ⟨by decide, by decide, by decide⟩

/-- C3 amended: the intent field of the returned Chat Reply is a fixed
per-intent label of the matched intent (book↦booking,
braces↦braces_guidance, insurance↦insurance_info, payment↦payment_info,
receptionist↦about_bot, the other intents map to themselves), drawn
from the closed set {booking, reschedule, cancel, braces_guidance,
insurance_info, payment_info, about_bot, callback, general}. -/
theorem claim_C3_reply_intent_label (req : ChatRequest) (now : String) :
    ((chat req now).1).intent = intentLabel (classify req.message)
    ∧ ((chat req now).1).intent ∈
        (["booking", "reschedule", "cancel", "braces_guidance", "insurance_info",
          "payment_info", "about_bot", "callback", "general"] : List String) := by
  have h : ((chat req now).1).intent = intentLabel (classify req.message) := by
    simp only [chat, intentLabel, mkReply]
    split_ifs <;> rfl
  refine ⟨h, ?_⟩
  rw [h, intentLabel]
  split_ifs <;> decide

/-- C4 counterexample: "ai" is not a substring of "display" — no
keyword is — so the message "display" classifies as "general", not as
"receptionist". -/
theorem claim_C4_counterexample :
    hasSubstr "ai".toList (normText (some "display")) = false
    ∧ intents.all (fun p => p.2.all (fun k => ! hasSubstr k.toList (normText (some "display")))) = true
    ∧ classify (some "display") = "general" :=
  ⟨by decide, by decide, by decide⟩

/-- C4 amended: keyword matching is plain substring matching, not
word-boundary matching: every message containing "recall" and no
keyword of an earlier rule classifies as callback via the keyword
"call" occurring inside "recall"; in particular "recall me please"
yields intent callback and emits one handoff_requested event. (The
claim's other example is wrong: "ai" is not a substring of "display",
so a message containing "display" and no keyword classifies as
general — see the counterexample.) -/
theorem claim_C4_substring_matching :
    (∀ (m : Option String),
        hasSubstr "recall".toList (normText m) = true →
        (∀ j (hj : j < 7),
          ruleMatches (intents.get ⟨j, Nat.lt_trans hj (by decide)⟩) (normText m) = false) →
        classify m = "callback")
    ∧ classify (some "recall me please") = "callback"
    ∧ (chat ⟨some "recall me please", some "s", some "p", false, none⟩ "t").2 =
        [⟨"handoff_requested", "website", some "p", some "s", some []⟩] := by
  refine ⟨?_, by decide, by decide⟩
  intro m hrec hprev
  have hcall : hasSubstr "call".toList (normText m) = true := by
    rw [hasSubstr_iff]
    exact List.IsInfix.trans ((hasSubstr_iff _ _).mp (by decide))
      ((hasSubstr_iff _ _).mp hrec)
  have hmatch : ruleMatches (intents.get ⟨7, by decide⟩) (normText m) = true := by
    show (["call", "phone", "contact"].any fun k => hasSubstr k.toList (normText m)) = true
    rw [List.any_cons, hcall]
    rfl
  rw [classify, detect,
    find?_first (fun p => ruleMatches p (normText m)) intents 7 (by decide) hmatch hprev]
  rfl

/-- C4 witness: the theorem applied to the concrete message
"please recall our office" (contains "recall", no earlier-rule
keyword). -/
theorem claim_C4_witness :
    classify (some "please recall our office") = "callback" :=
  claim_C4_substring_matching.1 (some "please recall our office") (by decide) (by decide)

/-- C5: a failure of the persistence write never prevents a Chat Reply
from being returned: for every write-outcome behaviour of the
collaborator (including failures), `chat` returns exactly the reply it
returns with any other behaviour — no error is surfaced and the reply
path is not blocked — and the writes attempted are exactly the emitted
events, in order. -/
theorem claim_C5_reply_survives_persistence_failure
    (persist : EventRec → WriteResult) (req : ChatRequest) (now : String) :
    (chatP persist req now).1 = (chat req now).1
    ∧ (chatP persist req now).2 = ((chat req now).2).map persist := by
  refine ⟨?_, ?_⟩ <;> (simp only [chatP, chat]; split_ifs <;> rfl)

/-- C6: for every request the reply's quickReplies list is the shared
default list of exactly three actions in order — Book Now/book with the
booking URL, Check Insurance/insurance, Request Callback/callback — no
intent overrides it, every entry has a non-empty label and action, and
exactly one entry (book) has a non-empty url. -/
theorem claim_C6_default_quick_replies (req : ChatRequest) (now : String) :
    ((chat req now).1).quickReplies = defaultQuickReplies
    ∧ defaultQuickReplies =
        [⟨"Book Now", "book", some "https://cal.com/velodent-ogbkfv/20min"⟩,
         ⟨"Check Insurance", "insurance", none⟩,
         ⟨"Request Callback", "callback", none⟩]
    ∧ (defaultQuickReplies.all fun q => !(q.label == "") && !(q.action == "")) = true
    ∧ (defaultQuickReplies.filter fun q => q.url.isSome).map QuickReply.action = ["book"]
    ∧ (defaultQuickReplies.filter fun q => q.url.isSome).map QuickReply.url =
        [some "https://cal.com/velodent-ogbkfv/20min"] := by
  refine ⟨?_, by decide, by decide, by decide, by decide⟩
  simp only [chat, mkReply]
  split_ifs <;> rfl

/-- C7: classification is invariant under normalization — adding or
removing surrounding whitespace and changing ASCII letter case never
changes the classified intent, and an absent (null) message behaves as
the empty string; `classify` factors through `classifyText` on the raw
characters. -/
theorem claim_C7_normalization_invariance :
    (∀ (m w₁ w₂ : List Char), w₁.all isPySpace = true → w₂.all isPySpace = true →
        classifyText (w₁ ++ m ++ w₂) = classifyText m)
    ∧ (∀ (m₁ m₂ : List Char), m₁.map pyLowerChar = m₂.map pyLowerChar →
        classifyText m₁ = classifyText m₂)
    ∧ classify none = classify (some "")
    ∧ (∀ (m : Option String), classify m = classifyText (m.getD "").toList) := by
  refine ⟨?_, ?_, rfl, fun _ => rfl⟩
  · intro m w₁ w₂ h1 h2
    rw [classifyText, classifyText, normChars_pad m w₁ w₂ h1 h2]
  · intro m₁ m₂ h
    rw [classifyText, classifyText, normChars_map_lower_eq m₁ m₂ h]

/-- C7 witness: the theorem applied at concrete inputs — " Book "
versus "Book", and "BOOK" versus "book". -/
theorem claim_C7_witness :
    classifyText (" ".toList ++ "Book".toList ++ "  ".toList) = classifyText "Book".toList
    ∧ classifyText "BOOK".toList = classifyText "book".toList :=
  ⟨claim_C7_normalization_invariance.1 "Book".toList " ".toList "  ".toList
      (by decide) (by decide),
   claim_C7_normalization_invariance.2.1 "BOOK".toList "book".toList (by decide)⟩

/-- C8: the classifier is deterministic and stateless — in any sequence
of calls, the result of the call on input m is always `classify m`,
independent of which other calls happen before, after, or in between
(a pure function of its input, no hidden state). -/
theorem claim_C8_deterministic_stateless
    (pre₁ suf₁ pre₂ suf₂ : List (Option String)) (m : Option String) :
    (classifyTrace (pre₁ ++ m :: suf₁))[pre₁.length]? = some (classify m)
    ∧ (classifyTrace (pre₁ ++ m :: suf₁))[pre₁.length]? =
        (classifyTrace (pre₂ ++ m :: suf₂))[pre₂.length]? := by
  have key : ∀ (pre suf : List (Option String)),
      (classifyTrace (pre ++ m :: suf))[pre.length]? = some (classify m) := by
    intro pre suf
    rw [classifyTrace, List.getElem?_map, List.getElem?_append_right (Nat.le_refl _)]
    simp
  exact ⟨key pre₁ suf₁, (key pre₁ suf₁).trans (key pre₂ suf₂).symm⟩

/-- C9: consent and user do not influence the result — two requests
agreeing on message, page and session_id but differing arbitrarily in
consent and user produce the same reply text, intent and quickReplies,
and emit the same events. -/
theorem claim_C9_consent_user_noninterference
    (m sid pg : Option String) (c₁ c₂ : Bool)
    (u₁ u₂ : Option (List (String × String))) (now : String) :
    ((chat ⟨m, sid, pg, c₁, u₁⟩ now).1).reply = ((chat ⟨m, sid, pg, c₂, u₂⟩ now).1).reply
    ∧ ((chat ⟨m, sid, pg, c₁, u₁⟩ now).1).intent = ((chat ⟨m, sid, pg, c₂, u₂⟩ now).1).intent
    ∧ ((chat ⟨m, sid, pg, c₁, u₁⟩ now).1).quickReplies
        = ((chat ⟨m, sid, pg, c₂, u₂⟩ now).1).quickReplies
    ∧ (chat ⟨m, sid, pg, c₁, u₁⟩ now).2 = (chat ⟨m, sid, pg, c₂, u₂⟩ now).2 :=
  ⟨rfl, rfl, rfl, rfl⟩

/-- C10: every Event emitted by the chat endpoint carries the empty
dict as payload (the constructor is called without a payload argument
and the schema defaults payload to an empty dict), so neither the
message text nor user info is stored in these events. -/
theorem claim_C10_empty_event_payload (req : ChatRequest) (now : String) :
    (((chat req now).2).all fun e => e.payload == some []) = true := by
  simp only [chat]
  split_ifs <;> rfl
